import Mathlib

/-!
Verification of `bCNC/lib/svgcode.py`: translation of SVG path segments
into G-code motion commands.

The embedding models Python floats as sign/magnitude pairs over `ℚ`
(signed zero matters for the output text, since the code negates `y`
coordinates and Python renders `-0.0` with a minus sign).  The external
`svgelements` collaborators (`length`, `npoint`, parsing) are modelled as
data carried by each segment, following the spec's capability-interface
description; everything that `svgcode.py` itself computes is translated
directly from the source.
-/

set_option maxRecDepth 4000

namespace Svgcode

/-- Floor of a rational, computed on the numerator/denominator pair
(Batteries marks the `ℚ` field operations irreducible, so evaluation
lemmas below go through `with_unfolding_all`). -/
def qfloor (q : ℚ) : ℤ := q.num.fdiv q.den

/-- A Python float value, modelled as a sign bit plus a nonnegative
rational magnitude.  The sign bit is kept separately so that `-0.0`
(which Python prints as `-0.0`) is distinguishable from `0.0`. -/
structure PFloat where
  neg : Bool
  mag : ℚ
deriving DecidableEq

/-- Build a `PFloat` from a rational literal (positive zero for `0`). -/
def mkPF (q : ℚ) : PFloat :=
  if q < 0 then ⟨true, -q⟩ else ⟨false, q⟩

/-- Python unary minus on a float: flips the sign bit (so `-0.0` has a
negative sign). -/
def pyNeg (x : PFloat) : PFloat := ⟨!x.neg, x.mag⟩

/-- The signed rational value of a `PFloat` (signed zero collapses). -/
def toQ (x : PFloat) : ℚ := if x.neg then -x.mag else x.mag

/-- Python `round` to an integer: round half to even (banker's
rounding). -/
def roundHalfEven (q : ℚ) : ℤ :=
  let f := qfloor q
  let r := q - (f : ℚ)
  if r < 1 / 2 then f
  else if 1 / 2 < r then f + 1
  else if f % 2 = 0 then f else f + 1

/-- Python `str.rstrip` with a single strip character, on a char list:
removes every trailing occurrence of `c`. -/
def rstripChars (l : List Char) (c : Char) : List Char :=
  (l.reverse.dropWhile (fun a => a = c)).reverse

/-- Python `str.rstrip` with a single strip character. -/
def rstrip (s : String) (c : Char) : String := ⟨rstripChars s.data c⟩

/-- Python `format(x, str(w))` for numbers: right-align in a field of
minimum width `w`, filling with spaces on the left. -/
def padLeft (w : ℕ) (s : String) : String :=
  ⟨List.replicate (w - s.data.length) ' ' ++ s.data⟩

/-- Decimal digits of the fractional part `fp`, zero-padded on the left
to `d` digits. -/
def fracDigits (fp d : ℕ) : List Char :=
  let ds := Nat.toDigits 10 fp
  List.replicate (d - ds.length) '0' ++ ds

/-- Python `str` of the float whose value is `±(n / 10 ^ d)`: integer
part, a decimal point, and the fractional digits with trailing zeros
removed but at least one digit kept (`str(5.0) = "5.0"`).  This models
the repr of floats in the fixed-point display range, which covers every
value the translator formats. -/
def pyStr (neg : Bool) (n : ℕ) (d : ℕ) : String :=
  let ip := n / 10 ^ d
  let fr := rstripChars (fracDigits (n % 10 ^ d) d) '0'
  let fr := if fr = [] then ['0'] else fr
  ⟨(if neg then ['-'] else []) ++ Nat.toDigits 10 ip ++ '.' :: fr⟩

/-- `rv` from `svgcode.py`:
`(f"{round(v, d):{d}}").rstrip("0").rstrip(".")`.
Note the format spec is the *width* `d` (the nested `{d}` produces the
format spec string `"4"`), so the rounded value is rendered with
Python's default float representation, right-aligned in a field of
minimum width `d`, then trailing zeros and a trailing point are
stripped. -/
def rv (v : PFloat) (d : ℕ) : String :=
  let n := (roundHalfEven (v.mag * 10 ^ d)).toNat
  rstrip (rstrip (padLeft d (pyStr v.neg n d)) '0') '.'

/-- The segment kinds dispatched on by `path2gcode`: `Move`, `Line`,
`Close`, `Arc` (with x-radius, y-radius and signed sweep), the Bezier
kinds, and `other` for any segment type not otherwise recognised. -/
inductive SegKind where
  | move
  | line
  | close
  | arc (rx ry sweep : PFloat)
  | cubic
  | quad
  | other
deriving DecidableEq

/-- A 2D point with Python-float coordinates. -/
structure Point2D where
  x : PFloat
  y : PFloat
deriving DecidableEq

/-- One path segment, as consumed by `path2gcode`.  The external
`svgelements` collaborators are carried as data, per the spec's
capability interface: `length` is the value of
`segment.length(error=1e-5)` and `npoint` is the parametric sampler
`segment.npoint` on `[0, 1]`. -/
structure Segment where
  kind : SegKind
  endp : Point2D
  length : ℚ
  npoint : ℚ → Point2D

/-- `subdiv = max(1, round(segment.length(error=1e-5) * samples_per_unit))`. -/
def subdivOf (seg : Segment) (spu : ℚ) : ℕ :=
  (max 1 (roundHalfEven (seg.length * spu))).toNat

/-- `numpy.linspace(0, 1, n, endpoint=True)[1:]`: for `n ≥ 2` the
evenly spaced values `i/(n-1)` for `i = 1, …, n-1`; for `n ≤ 1` the
slice is empty (`linspace(0, 1, 1)` is the single point `0.0`, dropped
by the `[1:]`). -/
def linspaceTail (n : ℕ) : List ℚ :=
  if n ≤ 1 then []
  else (List.range (n - 1)).map (fun (i : ℕ) => ((i : ℚ) + 1) / ((n : ℚ) - 1))

/-- Translation of one segment by the loop body of `path2gcode`:
dispatch on the segment kind, with circular arcs (radii equal within
`1e-9`) emitted as a single `G02`/`G03` command and every unmatched
kind falling through to linear interpolation of `subdiv` samples of
`npoint`, the parameter-0 sample excluded. -/
def segGcode (seg : Segment) (spu : ℚ) (d : ℕ) : List String :=
  let subdiv := subdivOf seg spu
  let fallback :=
    (linspaceTail subdiv).map (fun t =>
      let sp := seg.npoint t
      "G1 X" ++ rv sp.x d ++ " Y" ++ rv (pyNeg sp.y) d)
  match seg.kind with
  | .move => ["G0 X" ++ rv seg.endp.x d ++ " Y" ++ rv (pyNeg seg.endp.y) d]
  | .line => ["G1 X" ++ rv seg.endp.x d ++ " Y" ++ rv (pyNeg seg.endp.y) d]
  | .close => ["G1 X" ++ rv seg.endp.x d ++ " Y" ++ rv (pyNeg seg.endp.y) d]
  | .arc rx ry sweep =>
    if |toQ rx - toQ ry| < 1 / 1000000000 then
      [(if 0 < toQ sweep then "G02" else "G03") ++ " X" ++ rv seg.endp.x d
        ++ " Y" ++ rv (pyNeg seg.endp.y) d ++ " R" ++ rv rx d]
    else fallback
  | .cubic => fallback
  | .quad => fallback
  | .other => fallback

/-- `path2gcode` on an already-parsed path: translate every segment in
order and join the command lines with newlines. -/
def path2gcode (path : List Segment) (spu : ℚ) (d : ℕ) : String :=
  String.intercalate "\n" (List.flatten (path.map (fun s => segGcode s spu d)))

/-- The argument of `path2gcode` in the source: either a raw SVG path
string or an already-parsed path. -/
inductive PathInput where
  | str (s : String)
  | path (p : List Segment)

/-- `path2gcode` including its first step `if isinstance(path, str):
path = Path(path)`; the external string parser is a parameter. -/
def path2gcodeInput (parse : String → List Segment) :
    PathInput → ℚ → ℕ → String
  | .str s, spu, d => path2gcode (parse s) spu d
  | .path p, spu, d => path2gcode p spu d

/-- An element of the parsed SVG document as traversed by `get_gcode`:
either a drawable shape — carrying its optional id and the segments of
its reified path — or any other element, which the driver skips.  The
external steps (`SVG.parse`, `Path(element)`, `reify`) are modelled by
the shape already exposing its segment list. -/
inductive Element where
  | shape (id : Option String) (segs : List Segment)
  | nonShape

/-- One entry of the list returned by `get_gcode`:
`{"id": element.id, "path": self.path2gcode(...)}`. -/
structure ShapeResult where
  id : Option String
  path : String
deriving DecidableEq

/-- The loop of `get_gcode` over the parsed document's elements:
drawable shapes contribute one result each, other elements none. -/
def get_gcode : List Element → ℚ → ℕ → List ShapeResult
  | [], _, _ => []
  | .shape i segs :: rest, spu, d =>
    ⟨i, path2gcode segs spu d⟩ :: get_gcode rest spu d
  | .nonShape :: rest, spu, d => get_gcode rest spu d

/-- The drawable shapes of a document, in order, with their ids. -/
def drawables (els : List Element) : List (Option String × List Segment) :=
  els.filterMap (fun e =>
    match e with
    | .shape i segs => some (i, segs)
    | .nonShape => none)

/-- Whether a segment kind falls through to the curve-sampling branch:
everything except `Move`, `Line`, `Close` and circular arcs. -/
def isFallbackKind : SegKind → Bool
  | .move => false
  | .line => false
  | .close => false
  | .arc rx ry _ => !(decide (|toQ rx - toQ ry| < 1 / 1000000000))
  | .cubic => true
  | .quad => true
  | .other => true

/-- The origin point `(0.0, 0.0)`. -/
def origin : Point2D := ⟨mkPF 0, mkPF 0⟩

/-- The `Move` segment parsed from the `M0,0` command of `"M0,0 L10,0"`
(a move has zero length; its sampler is irrelevant to translation). -/
def segMoveO : Segment := ⟨.move, origin, 0, fun _ => origin⟩

/-- The `Line` segment parsed from the `L10,0` command of
`"M0,0 L10,0"`: from the origin to `(10.0, 0.0)`, length 10. -/
def segLine10 : Segment :=
  ⟨.line, ⟨mkPF 10, mkPF 0⟩, 10, fun t => ⟨mkPF (10 * t), mkPF 0⟩⟩

/-- The path parsed from `"M0,0 L10,0"`. -/
def pathM0L10 : List Segment := [segMoveO, segLine10]

/-- A cubic Bezier segment of arc length `2.0` (with a placeholder
sampler; only the sample count is at issue for it). -/
def segCubic2 : Segment := ⟨.cubic, origin, 2, fun _ => origin⟩

/-- A degenerate cubic Bezier segment of arc length `0`. -/
def segCubic0 : Segment := ⟨.cubic, origin, 0, fun _ => origin⟩

/-- A circular arc from the origin to `(10.0, 0.0)` with
`rx = ry = 5.0` and positive sweep. -/
def segArc5 : Segment :=
  ⟨.arc (mkPF 5) (mkPF 5) (mkPF 1), ⟨mkPF 10, mkPF 0⟩, 16, fun _ => origin⟩

/-- A segment of an unrecognised kind with arc length `0.03`, sampled
along the diagonal `t ↦ (t, t)`. -/
def segOtherDiag : Segment :=
  ⟨.other, ⟨mkPF 1, mkPF 1⟩, 3 / 100, fun t => ⟨mkPF t, mkPF t⟩⟩

theorem length_linspaceTail (n : ℕ) : (linspaceTail n).length = n - 1 := by
  unfold linspaceTail
  split
  · rw [List.length_nil]
    omega
  · rw [List.length_map, List.length_range]

theorem head?_dropWhile_ne (l : List Char) (c : Char) :
    (l.dropWhile (fun a => a = c)).head? ≠ some c := by
  induction l with
  | nil => simp
  | cons a l ih =>
    by_cases h : a = c
    · simpa [List.dropWhile_cons, h] using ih
    · simp [List.dropWhile_cons, h]

theorem getLast?_rstrip (s : String) (c : Char) :
    (rstrip s c).data.getLast? ≠ some c := by
  show ((s.data.reverse.dropWhile (fun a => a = c)).reverse).getLast? ≠ some c
  rw [List.getLast?_reverse]
  exact head?_dropWhile_ne _ c

theorem segGcode_eq_fallback (seg : Segment) (spu : ℚ) (d : ℕ)
    (h : isFallbackKind seg.kind = true) :
    segGcode seg spu d = (linspaceTail (subdivOf seg spu)).map (fun t =>
      "G1 X" ++ rv (seg.npoint t).x d ++ " Y" ++ rv (pyNeg (seg.npoint t).y) d) := by
  obtain ⟨k, endp, len, np⟩ := seg
  cases k with
  | move => simp [isFallbackKind] at h
  | line => simp [isFallbackKind] at h
  | close => simp [isFallbackKind] at h
  | arc rx ry sweep =>
    simp only [isFallbackKind, Bool.not_eq_true', decide_eq_false_iff_not] at h
    show (if |toQ rx - toQ ry| < 1 / 1000000000 then _ else _) = _
    rw [if_neg h]
  | cubic => rfl
  | quad => rfl
  | other => rfl

theorem drawables_shape (i : Option String) (segs : List Segment)
    (rest : List Element) :
    drawables (.shape i segs :: rest) = (i, segs) :: drawables rest := rfl

theorem drawables_nonShape (rest : List Element) :
    drawables (.nonShape :: rest) = drawables rest := rfl

theorem get_gcode_eq_map (els : List Element) (spu : ℚ) (d : ℕ) :
    get_gcode els spu d
      = (drawables els).map (fun sh => ⟨sh.1, path2gcode sh.2 spu d⟩) := by
  induction els with
  | nil => rfl
  | cons e rest ih =>
    cases e with
    | shape i segs => simp only [get_gcode, drawables_shape, List.map_cons, ih]
    | nonShape => simp only [get_gcode, drawables_nonShape, ih]

/-- Claim C1, counterexample: the claim's concrete scenario fails on the
code — a fallback curve of arc length 2.0 with samplesPerUnit 10 yields
19 linear-move commands, not 20, because the parameter-0 sample is one
of the `max(1, round(2.0*10)) = 20` linspace samples and is dropped. -/
theorem C1_counterexample : (segGcode segCubic2 10 4).length ≠ 20 := by
  with_unfolding_all decide

/-- Claim C1, amended: every segment reaching the fallback sampling
rule emits `max(1, round(arcLength * samplesPerUnit)) - 1` linear-move
commands (the sample at parameter 0 is excluded from the sample count);
in particular arc length 2.0 with samplesPerUnit 10 yields 19. -/
theorem C1_sample_count (seg : Segment) (spu : ℚ) (d : ℕ)
    (h : isFallbackKind seg.kind = true) :
    (segGcode seg spu d).length = subdivOf seg spu - 1 := by
  rw [segGcode_eq_fallback seg spu d h, List.length_map, length_linspaceTail]

/-- Claim C1, witness: the amended count at the concrete scenario. -/
theorem C1_witness :
    (segGcode segCubic2 10 4).length = subdivOf segCubic2 10 - 1
      ∧ subdivOf segCubic2 10 - 1 = 19 :=
  ⟨C1_sample_count segCubic2 10 4 (by decide), by with_unfolding_all decide⟩

/-- Claim C2, counterexample: a fallback segment whose computed arc
length is 0 yields zero commands, not at least one —
`numpy.linspace(0, 1, 1)[1:]` is empty. -/
theorem C2_counterexample : (segGcode segCubic0 100 4).length = 0 := by
  with_unfolding_all decide

/-- Claim C2, amended: Move, Line, Close and circular-arc segments
yield exactly one command each, while a fallback-sampled segment yields
`max(1, round(length * samplesPerUnit)) - 1` commands — zero, not one,
when its computed arc length is negligible (sample count 1). -/
theorem C2_command_count (seg : Segment) (spu : ℚ) (d : ℕ) :
    (isFallbackKind seg.kind = false → (segGcode seg spu d).length = 1)
      ∧ (isFallbackKind seg.kind = true → subdivOf seg spu = 1 →
          segGcode seg spu d = []) := by
  constructor
  · intro h
    obtain ⟨k, endp, len, np⟩ := seg
    cases k with
    | move => rfl
    | line => rfl
    | close => rfl
    | arc rx ry sweep =>
      simp only [isFallbackKind, Bool.not_eq_false', decide_eq_true_eq] at h
      show (if |toQ rx - toQ ry| < 1 / 1000000000 then _ else _ : List String).length = 1
      rw [if_pos h]
      rfl
    | cubic => simp [isFallbackKind] at h
    | quad => simp [isFallbackKind] at h
    | other => simp [isFallbackKind] at h
  · intro h h1
    rw [segGcode_eq_fallback seg spu d h, h1]
    rfl

/-- Claim C2, witness: a Move segment yields one command; the
zero-length fallback segment yields none. -/
theorem C2_witness :
    (segGcode segMoveO 100 4).length = 1 ∧ segGcode segCubic0 100 4 = [] :=
  ⟨(C2_command_count segMoveO 100 4).1 (by decide),
    (C2_command_count segCubic0 100 4).2 (by decide) (by with_unfolding_all decide)⟩

/-- Claim C3, counterexample: value 5.0 with decimalDigits 4 renders as
" 5", not "5" — the nested `{d}` in `f"{round(v, d):{d}}"` is a minimum
field width, not a precision, so `str(5.0) = "5.0"` is padded to width
4 before stripping. -/
theorem C3_counterexample : rv (mkPF 5) 4 ≠ "5" := by
  with_unfolding_all decide

/-- Claim C3, amended: the rendering rounds v to d decimal places,
renders the result with Python's default float representation
right-aligned in a minimum field width of d, then strips trailing
zeros and a trailing decimal point (the result never ends in a point);
3.14159 with d = 2 renders as "3.14", and 5.0 with d = 4 renders as
" 5" (one space of width padding). -/
theorem C3_rendering :
    (∀ (v : PFloat) (d : ℕ), (rv v d).data.getLast? ≠ some '.')
      ∧ rv (mkPF (314159 / 100000)) 2 = "3.14" ∧ rv (mkPF 5) 4 = " 5" :=
  ⟨fun v d => getLast?_rstrip (rstrip (padLeft d
      (pyStr v.neg (roundHalfEven (v.mag * 10 ^ d)).toNat d)) '0') '.',
    by with_unfolding_all decide, by with_unfolding_all decide⟩

/-- Claim C3, witness: the no-trailing-point property and the padded
rendering at value 5.0, d = 4. -/
theorem C3_witness :
    (rv (mkPF 5) 4).data.getLast? ≠ some '.' ∧ rv (mkPF 5) 4 = " 5" :=
  ⟨C3_rendering.1 (mkPF 5) 4, C3_rendering.2.2⟩

/-- Claim C4, counterexample: the path "M0,0 L10,0" with
samplesPerUnit 100 and decimalDigits 4 does not translate to
"G0 X0 Y0\nG1 X10 Y0". -/
theorem C4_counterexample :
    path2gcode pathM0L10 100 4 ≠ "G0 X0 Y0\nG1 X10 Y0" := by
  with_unfolding_all decide

/-- Claim C4, amended: the path "M0,0 L10,0" with samplesPerUnit 100
and decimalDigits 4 translates to "G0 X 0 Y-0\nG1 X10 Y-0" — the
width-4 padding puts a space before the one-digit `0`, and the negated
y coordinate `-0.0` renders as "-0". -/
theorem C4_concrete :
    path2gcode pathM0L10 100 4 = "G0 X 0 Y-0\nG1 X10 Y-0" := by
  with_unfolding_all decide

/-- Claim C5: an arc segment whose radii are equal within 1e-9
translates to exactly one circular-interpolation command — G02 if the
sweep is positive, G03 otherwise — carrying the y-flipped end point and
the radius rx. -/
theorem C5_circular_arc (endp : Point2D) (len : ℚ) (np : ℚ → Point2D)
    (rx ry sweep : PFloat) (spu : ℚ) (d : ℕ)
    (hc : |toQ rx - toQ ry| < 1 / 1000000000) :
    segGcode ⟨.arc rx ry sweep, endp, len, np⟩ spu d
      = [(if 0 < toQ sweep then "G02" else "G03") ++ " X" ++ rv endp.x d
          ++ " Y" ++ rv (pyNeg endp.y) d ++ " R" ++ rv rx d] := by
  show (if |toQ rx - toQ ry| < 1 / 1000000000 then _ else _) = _
  rw [if_pos hc]

/-- Claim C5, witness: the arc from the origin to (10, 0) with
rx = ry = 5 and sweep 1 yields the single command "G02 X10 Y-0 R 5". -/
theorem C5_witness : segGcode segArc5 100 4 = ["G02 X10 Y-0 R 5"] :=
  (C5_circular_arc ⟨mkPF 10, mkPF 0⟩ 16 (fun _ => origin) (mkPF 5) (mkPF 5)
      (mkPF 1) 100 4 (by with_unfolding_all decide)).trans
    (by with_unfolding_all decide)

/-- Claim C6: a Move segment translates to exactly one rapid-positioning
G0 command whose X is the segment's end x and whose Y is the negation of
the segment's end y. -/
theorem C6_move (endp : Point2D) (len : ℚ) (np : ℚ → Point2D)
    (spu : ℚ) (d : ℕ) :
    segGcode ⟨.move, endp, len, np⟩ spu d
      = ["G0 X" ++ rv endp.x d ++ " Y" ++ rv (pyNeg endp.y) d] := rfl

/-- Claim C7: a Line or Close segment translates to exactly one linear
G1 command targeting the end point with negated y. -/
theorem C7_line_close (endp : Point2D) (len : ℚ) (np : ℚ → Point2D)
    (spu : ℚ) (d : ℕ) (k : SegKind) (hk : k = .line ∨ k = .close) :
    segGcode ⟨k, endp, len, np⟩ spu d
      = ["G1 X" ++ rv endp.x d ++ " Y" ++ rv (pyNeg endp.y) d] := by
  rcases hk with hk | hk <;> subst hk <;> rfl

/-- Claim C7, witness: the line to (10, 0) yields "G1 X10 Y-0". -/
theorem C7_witness : segGcode segLine10 100 4 = ["G1 X10 Y-0"] :=
  (C7_line_close ⟨mkPF 10, mkPF 0⟩ 10 (fun t => ⟨mkPF (10 * t), mkPF 0⟩)
      100 4 .line (Or.inl rfl)).trans (by with_unfolding_all decide)

/-- Claim C8: the document driver produces one ShapeResult per drawable
shape, in input order, skipping non-drawable elements and passing each
shape's identifier through unchanged. -/
theorem C8_document_order (els : List Element) (spu : ℚ) (d : ℕ) :
    get_gcode els spu d
        = (drawables els).map (fun sh => ⟨sh.1, path2gcode sh.2 spu d⟩)
      ∧ (get_gcode els spu d).length = (drawables els).length
      ∧ (get_gcode els spu d).map ShapeResult.id = (drawables els).map Prod.fst := by
  refine ⟨get_gcode_eq_map els spu d, ?_, ?_⟩ <;> rw [get_gcode_eq_map els spu d]
  · rw [List.length_map]
  · rw [List.map_map]
    rfl

/-- Claim C9: a segment whose kind is not Move, Line, Close or circular
Arc — including the unrecognised kinds — is translated totally (the
translation is a total function, so no error is raised) by the fallback
sampling rule, emitting one linear G1 command per sampled point. -/
theorem C9_fallback (seg : Segment) (spu : ℚ) (d : ℕ)
    (h : isFallbackKind seg.kind = true) :
    segGcode seg spu d = (linspaceTail (subdivOf seg spu)).map (fun t =>
      "G1 X" ++ rv (seg.npoint t).x d ++ " Y" ++ rv (pyNeg (seg.npoint t).y) d) :=
  segGcode_eq_fallback seg spu d h

/-- Claim C9, witness: the unrecognised diagonal segment of length 0.03
at samplesPerUnit 100 is sampled at t = 1/2 and t = 1. -/
theorem C9_witness :
    segGcode segOtherDiag 100 4 = ["G1 X 0.5 Y-0.5", "G1 X 1 Y-1"] :=
  (C9_fallback segOtherDiag 100 4 (by decide)).trans
    (by with_unfolding_all decide)

/-- Claim C10: translating a raw path string equals parsing it and
translating the resulting path, and a path with zero segments yields
the empty string. -/
theorem C10_string_input (parse : String → List Segment) (s : String)
    (spu : ℚ) (d : ℕ) :
    path2gcodeInput parse (.str s) spu d
        = path2gcodeInput parse (.path (parse s)) spu d
      ∧ path2gcode [] spu d = "" :=
  ⟨rfl, rfl⟩

end Svgcode
